import Mathlib

/-!
Verification development for the PhotonX-OS scheduling/timing core.

The definitions below are a shallow embedding of the C sources:
  * `src/kernel/time/timer.c`   — tick/time conversions, uptime accumulator,
    timeout programming and the timer interrupt service routine;
  * `src/kernel/core/scheduler.c` — process table, per-priority ready queues,
    task creation and the scheduling decision procedure.

Machine integers (`uint64_t`) are modelled as `Nat` with explicit reduction
modulo `2 ^ 64` at every operation where C unsigned overflow semantics can
matter (multiplication, subtraction, accumulation).  The process table is the
arena `Nat → PCB`; the C pointers into the static `process_table` array are
represented by table indices, and the intrusive `next` pointers by
`Option Nat`.
-/

namespace PhotonX

/-! ## Timer driver (`src/kernel/time/timer.c`, `include/kernel/timer_heavy.h`) -/

/-- `2 ^ 64`, the modulus of `uint64_t` arithmetic. -/
def UINT64_MOD : Nat := 18446744073709551616

/-- `NS_PER_SEC` from `timer_heavy.h`. -/
def NS_PER_SEC : Nat := 1000000000

/-- `US_PER_SEC` from `timer_heavy.h`. -/
def US_PER_SEC : Nat := 1000000

/-- `ZYNQMP_REF_CLK_HZ` from `timer_heavy.h` (100 MHz default reference). -/
def ZYNQMP_REF_CLK_HZ : Nat := 100000000

/-- `TIMER_ENABLE_BIT` (bit 0 of `CNTP_CTL_EL0`). -/
def TIMER_ENABLE_BIT : Nat := 1

/-- `TIMER_IMASK_BIT` (bit 1 of `CNTP_CTL_EL0`). -/
def TIMER_IMASK_BIT : Nat := 2

/-- `TIMER_ISTATUS_BIT` (bit 2 of `CNTP_CTL_EL0`). -/
def TIMER_ISTATUS_BIT : Nat := 4

/-- `timer_config_t` from `timer_heavy.h`. -/
structure timer_config_t where
  frequency_hz : Nat
  min_delta_ticks : Nat
  max_delta_ticks : Nat
  irq_number : Nat
  initialized : Nat
  use_virtual : Nat
  deriving Repr, DecidableEq

/-- `system_uptime_t` from `timer_heavy.h`. -/
structure system_uptime_t where
  boot_timestamp : Nat
  last_tick : Nat
  uptime_ns : Nat
  uptime_sec : Nat
  ticks_per_ns : Nat
  deriving Repr, DecidableEq

/-- `ticks_to_ns` (timer.c lines 146-153):
`(ticks * NS_PER_SEC) / sys_timer_config.frequency_hz`, with the
multiplication performed in `uint64_t` (it wraps modulo `2 ^ 64`). -/
def ticks_to_ns (cfg : timer_config_t) (ticks : Nat) : Nat :=
  ticks * NS_PER_SEC % UINT64_MOD / cfg.frequency_hz

/-- `ns_to_ticks` (timer.c lines 160-163):
`(ns * sys_timer_config.frequency_hz) / NS_PER_SEC` in `uint64_t`. -/
def ns_to_ticks (cfg : timer_config_t) (ns : Nat) : Nat :=
  ns * cfg.frequency_hz % UINT64_MOD / NS_PER_SEC

/-- `ticks_to_us` (timer.c lines 169-171). -/
def ticks_to_us (cfg : timer_config_t) (ticks : Nat) : Nat :=
  ticks * US_PER_SEC % UINT64_MOD / cfg.frequency_hz

/-- `us_to_ticks` (timer.c lines 177-179). -/
def us_to_ticks (cfg : timer_config_t) (us : Nat) : Nat :=
  us * cfg.frequency_hz % UINT64_MOD / US_PER_SEC

/-- `timer_update_uptime` (timer.c lines 186-196).  `current_ticks` is the
value read from `CNTPCT_EL0` (assumed `< 2 ^ 64`); the delta is the C
unsigned subtraction `current_ticks - sys_uptime.last_tick`, which wraps
modulo `2 ^ 64`, and the accumulation `uptime_ns += ticks_to_ns(delta)` is
likewise `uint64_t` addition. -/
def timer_update_uptime (cfg : timer_config_t) (up : system_uptime_t)
    (current_ticks : Nat) : system_uptime_t :=
  let delta := (current_ticks + UINT64_MOD - up.last_tick) % UINT64_MOD
  let ns := (up.uptime_ns + ticks_to_ns cfg delta) % UINT64_MOD
  { up with
    uptime_ns := ns
    uptime_sec := ns / NS_PER_SEC
    last_tick := current_ticks }

/-- Result of one invocation of the timer interrupt service routine.
`sched_tick_called` records whether the routine invoked the Scheduler
Core's tick callback; in the source (timer.c lines 421-423) that call
exists only inside a comment, so no execution path performs it. -/
structure TimerIsrResult where
  ctl : Nat
  uptime : system_uptime_t
  sched_tick_called : Bool
  deriving Repr, DecidableEq

/-- `timer_isr` (timer.c lines 408-428).  `ctl` is the value read from
`CNTP_CTL_EL0` and `current_ticks` the counter value that
`timer_update_uptime` will read.  If `ctl & TIMER_ISTATUS_BIT` is set the
routine writes back `ctl | TIMER_IMASK_BIT` (keeping the ENABLE bit) and
updates the uptime; otherwise it changes nothing.  The scheduler hook at
step 4 of the source is commented out, so `sched_tick_called` is `false`
on every path. -/
def timer_isr (cfg : timer_config_t) (ctl : Nat) (up : system_uptime_t)
    (current_ticks : Nat) : TimerIsrResult :=
  if ctl &&& TIMER_ISTATUS_BIT ≠ 0 then
    { ctl := (ctl ||| TIMER_IMASK_BIT) % UINT64_MOD
      uptime := timer_update_uptime cfg up current_ticks
      sched_tick_called := false }
  else
    { ctl := ctl, uptime := up, sched_tick_called := false }

/-- `timer_set_timeout` (timer.c lines 368-390): the tick count programmed
into `CNTP_TVAL_EL0` after the minimum-delta clamp. -/
def timer_set_timeout_ticks (cfg : timer_config_t) (ns : Nat) : Nat :=
  let ticks := ns_to_ticks cfg ns
  if ticks < cfg.min_delta_ticks then cfg.min_delta_ticks else ticks

/-- The configuration produced by `timer_core_init` (timer.c lines 226-276)
for a detected (or forced) frequency of 100 MHz. -/
def cfg100 : timer_config_t :=
  { frequency_hz := ZYNQMP_REF_CLK_HZ
    min_delta_ticks := 15
    max_delta_ticks := 9223372036854775807
    irq_number := 30
    initialized := 1
    use_virtual := 0 }

/-- The same configuration with a 1 GHz detected frequency
("gigahertz-class" hardware). -/
def cfg1ghz : timer_config_t :=
  { frequency_hz := 1000000000
    min_delta_ticks := 15
    max_delta_ticks := 9223372036854775807
    irq_number := 30
    initialized := 1
    use_virtual := 0 }

/-! ## Scheduler core (`src/kernel/core/scheduler.c`) -/

/-- `MAX_PROCESSES` (scheduler.c line 16). -/
def MAX_PROCESSES : Nat := 128

/-- `TIME_SLICE_MS` (scheduler.c line 18). -/
def TIME_SLICE_MS : Nat := 10

/-- `PRIORITY_LEVELS` (scheduler.c line 19). -/
def PRIORITY_LEVELS : Nat := 16

/-- `proc_state_t` (scheduler.c lines 22-29). -/
inductive proc_state_t where
  | PROC_UNUSED
  | PROC_CREATED
  | PROC_READY
  | PROC_RUNNING
  | PROC_BLOCKED
  | PROC_ZOMBIE
  deriving Repr, DecidableEq

export proc_state_t (PROC_UNUSED PROC_CREATED PROC_READY PROC_RUNNING
  PROC_BLOCKED PROC_ZOMBIE)

/-- `pcb_t` (scheduler.c lines 43-61).  The `next` pointer into the static
`process_table` array is modelled as an optional table index; the stack
fields and the saved hardware context (`cpu_context_t`) are memory-layout
and register-file details outside the scheduler's bookkeeping and are not
inspected by any scheduler decision, so they are not modelled. -/
structure pcb_t where
  pid : Nat
  name : String
  state : proc_state_t
  priority : Nat
  ticks_remaining : Nat
  total_runtime : Nat
  next : Option Nat
  deriving Repr, DecidableEq

/-- The global scheduler data (scheduler.c lines 64-66): the process table,
the `current_process` pointer (as a table index) and one ready-queue head
pointer per priority level (as an optional table index). -/
structure SchedState where
  process_table : Nat → pcb_t
  current_process : Nat
  ready_queue : Nat → Option Nat

/-- First index `i` with `start ≤ i < start + fuel` satisfying `p`,
scanning upwards — the shape of the two search loops in scheduler.c
(the free-slot loop of `create_process` and the priority scan of
`schedule`). -/
def scan_first (p : Nat → Bool) (start : Nat) : Nat → Option Nat
  | 0 => none
  | fuel + 1 => if p start then some start else scan_first p (start + 1) fuel

/-- The free-slot search of `create_process` (scheduler.c lines 102-109):
`for (i = 1; i < MAX_PROCESSES; i++)` returning the first slot whose state
is `PROC_UNUSED`. -/
def find_free_slot (t : Nat → pcb_t) : Option Nat :=
  scan_first (fun i => decide ((t i).state = PROC_UNUSED)) 1 (MAX_PROCESSES - 1)

/-- The priority scan of `schedule` (scheduler.c lines 157-168):
`for (prio = 0; prio < PRIORITY_LEVELS; prio++)` returning the first
priority level whose ready queue is non-empty. -/
def scan_ready (rq : Nat → Option Nat) : Option Nat :=
  scan_first (fun prio => (rq prio).isSome) 0 PRIORITY_LEVELS

/-- `system_init_scheduler` (scheduler.c lines 76-93): every slot `i` is
zeroed with `state = PROC_UNUSED` and `pid = i`; slot 0 becomes the idle
task (`PROC_RUNNING`, name `idle_task`, lowest priority) and
`current_process` points at it.  The static `ready_queue` array is all
`NULL`. -/
def init_state : SchedState :=
  { process_table := fun i =>
      if i = 0 then
        { pid := 0, name := "idle_task", state := PROC_RUNNING
          priority := PRIORITY_LEVELS - 1, ticks_remaining := 0
          total_runtime := 0, next := none }
      else
        { pid := i, name := "", state := PROC_UNUSED, priority := 0
          ticks_remaining := 0, total_runtime := 0, next := none }
    current_process := 0
    ready_queue := fun _ => none }

/-- `create_process` (scheduler.c lines 99-146).  Returns the C `int`
result (`-1` on failure, the allocated slot index otherwise) together with
the updated scheduler state.  On success the PCB is filled in
(`state = PROC_READY` after the transient `PROC_CREATED`,
`ticks_remaining = TIME_SLICE_MS`) and inserted at the HEAD of its
priority's ready queue (`p->next = ready_queue[priority];
ready_queue[priority] = p;`, lines 141-142). -/
def create_process (st : SchedState) (name : String) (priority : Nat) :
    Int × SchedState :=
  if priority ≥ PRIORITY_LEVELS then (-1, st)
  else
    match find_free_slot st.process_table with
    | none => (-1, st)
    | some pid =>
        let p : pcb_t :=
          { st.process_table pid with
            name := name
            priority := priority
            state := PROC_READY
            ticks_remaining := TIME_SLICE_MS
            next := st.ready_queue priority }
        (Int.ofNat pid,
         { st with
           process_table := fun j => if j = pid then p else st.process_table j
           ready_queue := fun q =>
             if q = priority then some pid else st.ready_queue q })

/-- The context-switch bookkeeping of `schedule` (scheduler.c lines
179-191), reached only when `next != prev`: the outgoing task's state is
set to `PROC_READY` (line 180, unconditionally), the re-queueing branch at
lines 182-184 has an empty body, the incoming task's state is set to
`PROC_RUNNING` and `current_process` is updated.  `switch_to` only
transfers the hardware context and touches no scheduler bookkeeping. -/
def do_switch (st : SchedState) (prev nxt : Nat) : SchedState :=
  let t1 : Nat → pcb_t := fun j =>
    if j = prev then { st.process_table j with state := PROC_READY }
    else st.process_table j
  let t2 : Nat → pcb_t := fun j =>
    if j = nxt then { t1 j with state := PROC_RUNNING } else t1 j
  { st with process_table := t2, current_process := nxt }

/-- The `if (next != prev)` guard of `schedule` (scheduler.c line 179). -/
def schedule_switch (st : SchedState) (prev nxt : Nat) : SchedState :=
  if nxt = prev then st else do_switch st prev nxt

/-- The found-a-task path of `schedule` (scheduler.c lines 160-166 and
178-192): pop the head of queue `prio` (`ready_queue[prio] = next->next;
next->next = NULL;`) and switch if it differs from `current_process`. -/
def schedule_pick (st : SchedState) (prio : Nat) : SchedState :=
  match st.ready_queue prio with
  | none => st
  | some h =>
      let popped : SchedState :=
        { st with
          ready_queue := fun q =>
            if q = prio then (st.process_table h).next else st.ready_queue q
          process_table := fun j =>
            if j = h then { st.process_table j with next := none }
            else st.process_table j }
      schedule_switch popped st.current_process h

/-- The empty-queues path of `schedule` (scheduler.c lines 171-176 and
178-192): if the current task is already the running idle task return,
otherwise the idle task (slot 0) becomes `next` and the `next != prev`
switch logic runs. -/
def schedule_idle (st : SchedState) : SchedState :=
  if (st.process_table st.current_process).pid = 0 ∧
     (st.process_table st.current_process).state = PROC_RUNNING then st
  else schedule_switch st st.current_process 0

/-- `schedule` (scheduler.c lines 152-193). -/
def schedule (st : SchedState) : SchedState :=
  match scan_ready st.ready_queue with
  | some prio => schedule_pick st prio
  | none => schedule_idle st

/-- `yield` (scheduler.c lines 199-201). -/
def yield (st : SchedState) : SchedState := schedule st

/-- The list of table indices on ready queue `p`, following the intrusive
`next` links (with fuel `MAX_PROCESSES`, enough for any queue drawn from
the 128-slot table without a cycle). -/
def queue_list_from (t : Nat → pcb_t) : Option Nat → Nat → List Nat
  | none, _ => []
  | some _, 0 => []
  | some i, fuel + 1 => i :: queue_list_from t (t i).next fuel

/-- The members of ready queue `p` of state `st`, head first. -/
def queue_list (st : SchedState) (p : Nat) : List Nat :=
  queue_list_from st.process_table (st.ready_queue p) MAX_PROCESSES

/-- A sequence of `create_process` calls (name, priority), returning the
list of C `int` results in call order and the final state. -/
def run_creates (st : SchedState) : List (String × Nat) → List Int × SchedState
  | [] => ([], st)
  | req :: rest =>
      let r := create_process st req.1 req.2
      ((r.1 :: (run_creates r.2 rest).1), (run_creates r.2 rest).2)

/-! ## Concrete states used as inputs -/

/-- A state in which task 1 (priority 5) is running, task 2 (priority 5) is
ready at the head of queue 5, and the idle task was previously switched
out. -/
def c1_state : SchedState :=
  { process_table := fun i =>
      if i = 0 then
        { pid := 0, name := "idle_task", state := PROC_READY
          priority := 15, ticks_remaining := 0, total_runtime := 0, next := none }
      else if i = 1 then
        { pid := 1, name := "task_a", state := PROC_RUNNING
          priority := 5, ticks_remaining := 10, total_runtime := 0, next := none }
      else if i = 2 then
        { pid := 2, name := "task_b", state := PROC_READY
          priority := 5, ticks_remaining := 10, total_runtime := 0, next := none }
      else
        { pid := i, name := "", state := PROC_UNUSED, priority := 0
          ticks_remaining := 0, total_runtime := 0, next := none }
    current_process := 1
    ready_queue := fun q => if q = 5 then some 2 else none }

/-- The state after creating `task_a` at priority 3 from the initialized
scheduler. -/
def c2_state1 : SchedState := (create_process init_state "task_a" 3).2

/-- The state after then creating `task_b`, also at priority 3. -/
def c2_state2 : SchedState := (create_process c2_state1 "task_b" 3).2

/-- An uptime record 100 ticks after boot. -/
def c3_up : system_uptime_t :=
  { boot_timestamp := 0, last_tick := 100, uptime_ns := 0
    uptime_sec := 0, ticks_per_ns := 0 }

/-- An uptime record whose last snapshot sits 10 ticks before the 64-bit
counter wraps. -/
def w6_up : system_uptime_t :=
  { boot_timestamp := 0, last_tick := 18446744073709551606, uptime_ns := 42
    uptime_sec := 0, ticks_per_ns := 0 }

/-- A state with ready tasks at two priority levels: task 3 on queue 2 and
task 1 on queue 5. -/
def w7_state : SchedState :=
  { process_table := fun i =>
      { pid := i, name := "", state := PROC_READY, priority := 2
        ticks_remaining := 10, total_runtime := 0, next := none }
    current_process := 0
    ready_queue := fun q => if q = 2 then some 3 else if q = 5 then some 1 else none }

/-! ## Helper lemmas about the search loops and `create_process` -/

theorem scan_first_eq_some (p : Nat → Bool) :
    ∀ (fuel start i : Nat), start ≤ i → i < start + fuel → p i = true →
      (∀ q, start ≤ q → q < i → p q = false) →
      scan_first p start fuel = some i := by
  intro fuel
  induction fuel with
  | zero => intro start i h1 h2 _ _; omega
  | succ n ih =>
      intro start i h1 h2 hp hq
      by_cases hs : start = i
      · subst hs; simp [scan_first, hp]
      · have hlt : start < i := lt_of_le_of_ne h1 hs
        have hfalse : p start = false := hq start le_rfl hlt
        simp only [scan_first, hfalse, Bool.false_eq_true, if_false]
        exact ih (start + 1) i (by omega) (by omega) hp
          (fun q hq1 hq2 => hq q (by omega) hq2)

theorem scan_first_eq_none (p : Nat → Bool) :
    ∀ (fuel start : Nat),
      (∀ q, start ≤ q → q < start + fuel → p q = false) →
      scan_first p start fuel = none := by
  intro fuel
  induction fuel with
  | zero => intro start _; rfl
  | succ n ih =>
      intro start h
      have hfalse : p start = false := h start le_rfl (by omega)
      simp only [scan_first, hfalse, Bool.false_eq_true, if_false]
      exact ih (start + 1) (fun q hq1 hq2 => h q (by omega) (by omega))

theorem scan_first_spec (p : Nat → Bool) :
    ∀ (fuel start i : Nat), scan_first p start fuel = some i →
      start ≤ i ∧ i < start + fuel ∧ p i = true ∧
      ∀ q, start ≤ q → q < i → p q = false := by
  intro fuel
  induction fuel with
  | zero => intro start i h; cases h
  | succ n ih =>
      intro start i h
      by_cases hp : p start
      · simp only [scan_first, hp, if_true, Option.some.injEq] at h
        subst h
        exact ⟨le_rfl, by omega, hp, fun q h1 h2 => by omega⟩
      · simp only [scan_first, hp, if_false] at h
        obtain ⟨h1, h2, h3, h4⟩ := ih (start + 1) i h
        refine ⟨by omega, by omega, h3, fun q hq1 hq2 => ?_⟩
        by_cases hqs : q = start
        · subst hqs; exact Bool.eq_false_iff.mpr hp
        · exact h4 q (by omega) hq2

/-- Case analysis of `create_process`: either it fails returning `(-1, st)`
with the state untouched, or it allocates the lowest-numbered unused slot
in `[1, MAX_PROCESSES)`, makes it `PROC_READY`, and touches no other
slot. -/
theorem create_cases (st : SchedState) (name : String) (priority : Nat) :
    create_process st name priority = (-1, st) ∨
    ∃ pid, 1 ≤ pid ∧ pid < MAX_PROCESSES ∧
      (st.process_table pid).state = PROC_UNUSED ∧
      (∀ j, 1 ≤ j → j < pid → (st.process_table j).state ≠ PROC_UNUSED) ∧
      (create_process st name priority).1 = Int.ofNat pid ∧
      ((create_process st name priority).2.process_table pid).state = PROC_READY ∧
      (∀ j, j ≠ pid →
        (create_process st name priority).2.process_table j = st.process_table j) := by
  by_cases hp : priority ≥ PRIORITY_LEVELS
  · left; simp [create_process, hp]
  · cases hfs : find_free_slot st.process_table with
    | none => left; simp [create_process, hp, hfs]
    | some pid =>
        right
        have hspec := scan_first_spec _ _ _ _ hfs
        obtain ⟨h1, h2, h3, h4⟩ := hspec
        refine ⟨pid, h1, ?_, of_decide_eq_true h3, ?_, ?_, ?_, ?_⟩
        · have : MAX_PROCESSES = 128 := rfl
          omega
        · intro j hj1 hj2
          have := h4 j hj1 hj2
          exact of_decide_eq_false this
        · simp [create_process, hp, hfs]
        · simp [create_process, hp, hfs]
        · intro j hj
          simp [create_process, hp, hfs, hj]

theorem create_preserves_nonunused (st : SchedState) (name : String)
    (priority : Nat) (j : Nat)
    (h : (st.process_table j).state ≠ PROC_UNUSED) :
    ((create_process st name priority).2.process_table j).state ≠ PROC_UNUSED := by
  rcases create_cases st name priority with heq | ⟨pid, _, _, _, _, _, hready, hother⟩
  · rw [heq]; exact h
  · by_cases hj : j = pid
    · subst hj; rw [hready]; intro hc; cases hc
    · rw [hother j hj]; exact h

/-- A slot that is already occupied is never returned by any later call in
a `create_process` sequence. -/
theorem run_creates_not_mem (pid : Nat) :
    ∀ (reqs : List (String × Nat)) (st : SchedState),
      (st.process_table pid).state ≠ PROC_UNUSED →
      Int.ofNat pid ∉ (run_creates st reqs).1 := by
  intro reqs
  induction reqs with
  | nil => intro st _ h; cases h
  | cons req rest ih =>
      intro st hst
      simp only [run_creates, List.mem_cons, not_or]
      constructor
      · rcases create_cases st req.1 req.2 with heq | ⟨q, _, _, hq, _, hres, _, _⟩
        · rw [heq]; intro hc
          rw [Int.ofNat_eq_natCast] at hc
          simp at hc
        · rw [hres]
          intro hc
          have : pid = q := Int.ofNat.inj hc
          subst this
          exact hst hq
      · exact ih _ (create_preserves_nonunused st req.1 req.2 pid hst)

theorem run_creates_mem_range :
    ∀ (reqs : List (String × Nat)) (st : SchedState) (r : Int),
      r ∈ (run_creates st reqs).1 → r = -1 ∨ (1 ≤ r ∧ r < 128) := by
  intro reqs
  induction reqs with
  | nil => intro st r h; cases h
  | cons req rest ih =>
      intro st r h
      simp only [run_creates, List.mem_cons] at h
      rcases h with h | h
      · rcases create_cases st req.1 req.2 with heq | ⟨q, hq1, hq2, _, _, hres, _, _⟩
        · rw [heq] at h; left; exact h
        · rw [hres] at h
          subst h
          right
          rw [Int.ofNat_eq_natCast]
          have : MAX_PROCESSES = 128 := rfl
          omega
      · exact ih _ r h

/-- The successful results of a `create_process` sequence are pairwise
distinct. -/
theorem run_creates_nodup :
    ∀ (reqs : List (String × Nat)) (st : SchedState),
      ((run_creates st reqs).1.filter
        (fun r => decide ((0 : Int) ≤ r))).Pairwise (fun a b => a ≠ b) := by
  intro reqs
  induction reqs with
  | nil => intro st; simp [run_creates]
  | cons req rest ih =>
      intro st
      simp only [run_creates]
      rcases create_cases st req.1 req.2 with heq | ⟨q, _, _, _, _, hres, hready, _⟩
      · rw [heq]
        simp only [List.filter]
        norm_num
        exact ih _
      · rw [hres]
        simp only [List.filter]
        have h0 : decide ((0 : Int) ≤ Int.ofNat q) = true := by
          simp
        rw [h0]
        rw [List.pairwise_cons]
        constructor
        · intro b hb hcb
          have hbmem := List.mem_of_mem_filter hb
          have hnot := run_creates_not_mem q rest
            (create_process st req.1 req.2).2
            (by rw [hready]; intro hc; cases hc)
          rw [hcb] at hnot
          exact hnot hbmem
        · exact ih _

/-! ## Claim theorems -/

/-- C1: the spec requires that an outgoing task that is not idle and did
not block or exit is re-appended to the tail of its priority queue by
`schedule()`.  The source's re-queue branch (scheduler.c lines 182-184)
has an empty body, so the code violates this: from `c1_state`, `schedule`
switches to task 2 and sets task 1 to `PROC_READY`, but task 1 is on no
ready queue afterwards — it is lost from scheduling consideration. -/
theorem schedule_preempted_task_lost :
    (schedule c1_state).current_process = 2 ∧
    ((schedule c1_state).process_table 1).state = PROC_READY ∧
    (List.range PRIORITY_LEVELS).map (fun p => queue_list (schedule c1_state) p) =
      List.replicate PRIORITY_LEVELS [] := by decide

/-- C2: the spec requires `CreateTask` to insert at the tail of the
priority queue so that `schedule()` visits same-priority tasks in creation
order.  The source inserts at the head (scheduler.c lines 141-142):
creating `task_a` (pid 1) then `task_b` (pid 2) at priority 3 leaves queue
3 as `[2, 1]`, and the first `schedule()` runs pid 2, the task created
last — the reverse of insertion order. -/
theorem create_process_head_insertion :
    (create_process init_state "task_a" 3).1 = 1 ∧
    (create_process c2_state1 "task_b" 3).1 = 2 ∧
    queue_list c2_state2 3 = [2, 1] ∧
    (schedule c2_state2).current_process = 2 := by decide

/-- C3: with ISTATUS set (`ctl = ENABLE ||| ISTATUS = 5`) the ISR masks its
interrupt keeping ENABLE (`ctl` becomes 7) and updates the uptime, and
with ISTATUS clear it is a pure no-op — but on no path does it invoke the
Scheduler Core's tick callback: the call at timer.c lines 421-423 exists
only inside a comment, contradicting both the spec and the routine's own
step-4 heading. -/
theorem timer_isr_skips_tick_callback :
    (timer_isr cfg100 5 c3_up 200).ctl =
      TIMER_ENABLE_BIT + TIMER_IMASK_BIT + TIMER_ISTATUS_BIT ∧
    (timer_isr cfg100 5 c3_up 200).uptime.uptime_ns = 1000 ∧
    (timer_isr cfg100 5 c3_up 200).sched_tick_called = false ∧
    timer_isr cfg100 TIMER_IMASK_BIT c3_up 200 =
      { ctl := TIMER_IMASK_BIT, uptime := c3_up, sched_tick_called := false } := by
  decide

/-- C4 counterexample: an out-of-range priority (16 = `PRIORITY_LEVELS`)
does not halt the system — `create_process` returns the recoverable error
code `-1` to the caller (the same code as table-full) with the state
unchanged, refuting the claim that such a call is fatal. -/
theorem create_process_out_of_range_returns :
    create_process init_state "bad_prio" 16 = (-1, init_state) := rfl

/-- C4 amended: passing an out-of-range priority to `create_process`
returns `-1` to the caller and leaves the scheduler state exactly as it
was; the system does not halt. -/
theorem create_process_out_of_range_recoverable (st : SchedState)
    (name : String) (priority : Nat) (h : PRIORITY_LEVELS ≤ priority) :
    create_process st name priority = (-1, st) := by
  simp [create_process, h]

/-- Witness for C4 at priority 20. -/
theorem create_process_out_of_range_recoverable_witness :
    create_process init_state "bad_prio2" 20 = (-1, init_state) :=
  create_process_out_of_range_recoverable init_state "bad_prio2" 20 (by decide)

/-- C5: the 64-bit intermediate product overflows well within the claimed
operating lifetime.  At a 1 GHz frequency, `ticks_to_ns` on 2^36 ticks
(about 69 seconds) yields 13379244514 instead of the mathematically
correct 68719476736, and `ns_to_ticks` on 10^11 ns (100 seconds) yields
7766279631 instead of 100000000000, because `ticks * NS_PER_SEC`
respectively `ns * frequency` wrap modulo 2^64. -/
theorem conversion_mul_overflow :
    ticks_to_ns cfg1ghz 68719476736 = 13379244514 ∧
    68719476736 * NS_PER_SEC / cfg1ghz.frequency_hz = 68719476736 ∧
    ticks_to_ns cfg1ghz 68719476736 ≠
      68719476736 * NS_PER_SEC / cfg1ghz.frequency_hz ∧
    ns_to_ticks cfg1ghz 100000000000 = 7766279631 ∧
    100000000000 * cfg1ghz.frequency_hz / NS_PER_SEC = 100000000000 ∧
    ns_to_ticks cfg1ghz 100000000000 ≠
      100000000000 * cfg1ghz.frequency_hz / NS_PER_SEC := by
  decide

/-- C6: `timer_update_uptime` never decreases the accumulated uptime, for
any current counter reading — including one numerically below the last
snapshot (counter wraparound), since the delta is the wraparound-safe
unsigned subtraction — provided the 64-bit nanosecond accumulator itself
does not exceed its representable range on this step. -/
theorem timer_update_uptime_monotone (cfg : timer_config_t)
    (up : system_uptime_t) (current_ticks : Nat)
    (hnowrap : up.uptime_ns +
      ticks_to_ns cfg ((current_ticks + UINT64_MOD - up.last_tick) % UINT64_MOD)
      < UINT64_MOD) :
    up.uptime_ns ≤ (timer_update_uptime cfg up current_ticks).uptime_ns := by
  simp only [timer_update_uptime]
  rw [Nat.mod_eq_of_lt hnowrap]
  omega

/-- Witness for C6 across a simulated 64-bit counter wraparound: the last
snapshot sits 10 ticks below 2^64 and the current reading is 5. -/
theorem timer_update_uptime_monotone_witness :
    w6_up.uptime_ns ≤ (timer_update_uptime cfg100 w6_up 5).uptime_ns :=
  timer_update_uptime_monotone cfg100 w6_up 5 (by decide)

/-- C7: `schedule` always selects the head of the highest-priority
(numerically lowest) non-empty ready queue, and it selects the idle task
(slot 0) when every ready queue is empty. -/
theorem schedule_selects_highest (st : SchedState) :
    (∀ p h, p < PRIORITY_LEVELS → st.ready_queue p = some h →
      (∀ q, q < p → st.ready_queue q = none) →
      (schedule st).current_process = h) ∧
    ((st.process_table st.current_process).pid = st.current_process →
      (∀ p, p < PRIORITY_LEVELS → st.ready_queue p = none) →
      (schedule st).current_process = 0) := by
  constructor
  · intro p h hp hq hlow
    have hscan : scan_ready st.ready_queue = some p := by
      apply scan_first_eq_some
      · exact Nat.zero_le p
      · omega
      · simp [hq]
      · intro q _ hql
        simp [hlow q hql]
    simp only [schedule, hscan]
    simp only [schedule_pick, hq]
    by_cases hc : h = st.current_process
    · simp [schedule_switch, hc]
    · simp [schedule_switch, hc, do_switch]
  · intro hpid hempty
    have hscan : scan_ready st.ready_queue = none := by
      apply scan_first_eq_none
      intro q _ hql
      simp [hempty q (by omega)]
    simp only [schedule, hscan]
    simp only [schedule_idle]
    by_cases hc : (st.process_table st.current_process).pid = 0 ∧
        (st.process_table st.current_process).state = PROC_RUNNING
    · rw [if_pos hc]
      rw [← hpid]
      exact hc.1
    · rw [if_neg hc]
      by_cases h0 : (0 : Nat) = st.current_process
      · simp [schedule_switch, h0]
      · simp [schedule_switch, h0, do_switch]

/-- Witness for C7: from `w7_state` (queues 2 and 5 non-empty) `schedule`
selects task 3 from queue 2, and from the all-empty `init_state` it keeps
the idle task. -/
theorem schedule_selects_highest_witness :
    (schedule w7_state).current_process = 3 ∧
    (schedule init_state).current_process = 0 :=
  ⟨(schedule_selects_highest w7_state).1 2 3 (by decide) rfl (by decide),
   (schedule_selects_highest init_state).2 rfl (fun p hp => rfl)⟩

/-- C8: in any sequence of `create_process` calls the successful results
are pairwise distinct and lie in `[1, MAX_PROCESSES)` (slot 0 is never
returned); each successful call allocates the lowest-numbered unused slot;
and when no slot in `[1, MAX_PROCESSES)` is unused the call returns the
table-full failure `-1` instead of succeeding. -/
theorem create_task_id_properties (st : SchedState) :
    (∀ reqs : List (String × Nat),
      (((run_creates st reqs).1.filter
          (fun r => decide ((0 : Int) ≤ r))).Pairwise (fun a b => a ≠ b)) ∧
      (∀ r, r ∈ (run_creates st reqs).1 →
        r = -1 ∨ (1 ≤ r ∧ r < (MAX_PROCESSES : Int)))) ∧
    (∀ (name : String) (priority pid : Nat),
      (create_process st name priority).1 = Int.ofNat pid →
      1 ≤ pid ∧ pid < MAX_PROCESSES ∧
      (st.process_table pid).state = PROC_UNUSED ∧
      (∀ j, 1 ≤ j → j < pid → (st.process_table j).state ≠ PROC_UNUSED)) ∧
    (∀ (name : String) (priority : Nat),
      (∀ j, 1 ≤ j → j < MAX_PROCESSES →
        (st.process_table j).state ≠ PROC_UNUSED) →
      (create_process st name priority).1 = -1) := by
  refine ⟨fun reqs => ⟨run_creates_nodup reqs st, ?_⟩, ?_, ?_⟩
  · intro r hr
    have := run_creates_mem_range reqs st r hr
    have h128 : MAX_PROCESSES = 128 := rfl
    rw [h128]
    exact_mod_cast this
  · intro name priority pid hres
    rcases create_cases st name priority with heq | ⟨q, hq1, hq2, hq3, hq4, hq5, _, _⟩
    · rw [heq] at hres
      rw [Int.ofNat_eq_natCast] at hres
      simp at hres
    · rw [hq5] at hres
      have : q = pid := Int.ofNat.inj hres
      subst this
      exact ⟨hq1, hq2, hq3, hq4⟩
  · intro name priority hfull
    have hnone : find_free_slot st.process_table = none := by
      apply scan_first_eq_none
      intro q hq1 hq2
      have h128 : MAX_PROCESSES = 128 := rfl
      refine decide_eq_false ?_
      apply hfull q hq1
      omega
    by_cases hp : priority ≥ PRIORITY_LEVELS
    · simp [create_process, hp]
    · simp [create_process, hp, hnone]

/-- Witness for C8: creating `task_a` (priority 0) then `task_b`
(priority 5) from the initialized scheduler yields pairwise-distinct
successful identifiers, and the first result 1 lies in
`[1, MAX_PROCESSES)`. -/
theorem create_task_id_properties_witness :
    (((run_creates init_state [("task_a", 0), ("task_b", 5)]).1.filter
        (fun r => decide ((0 : Int) ≤ r))).Pairwise (fun a b => a ≠ b)) ∧
    ((1 : Int) = -1 ∨ (1 ≤ (1 : Int) ∧ (1 : Int) < (MAX_PROCESSES : Int))) :=
  ⟨((create_task_id_properties init_state).1 [("task_a", 0), ("task_b", 5)]).1,
   ((create_task_id_properties init_state).1 [("task_a", 0), ("task_b", 5)]).2
     1 (by decide)⟩

/-- C9: the round-trip through the conversions is not within one unit of
the original for in-range inputs, because of the 64-bit overflow of the
intermediate products.  At the documented default 100 MHz frequency,
2^36 ticks (about 687 seconds) round-trips to 13379244514, and 10^12 ns
(1000 seconds) round-trips to 77662796310 — both far more than one unit
off. -/
theorem conversion_roundtrip_diverges :
    ns_to_ticks cfg100 (ticks_to_ns cfg100 68719476736) = 13379244514 ∧
    68719476736 - ns_to_ticks cfg100 (ticks_to_ns cfg100 68719476736) > 1 ∧
    ticks_to_ns cfg100 (ns_to_ticks cfg100 1000000000000) = 77662796310 ∧
    1000000000000 - ticks_to_ns cfg100 (ns_to_ticks cfg100 1000000000000) > 1 := by
  decide

/-- C10: every failing `create_process` call (out-of-range priority or no
unused slot) returns `-1` and leaves the whole scheduler state — process
table, every ready queue, and the current-task reference — exactly as it
was. -/
theorem create_process_failure_atomic (st : SchedState) (name : String)
    (priority : Nat) (h : (create_process st name priority).1 = -1) :
    (create_process st name priority).2 = st := by
  rcases create_cases st name priority with heq | ⟨pid, _, _, _, _, hres, _, _⟩
  · rw [heq]
  · rw [hres] at h
    rw [Int.ofNat_eq_natCast] at h
    simp at h

/-- Witness for C10 at an out-of-range priority. -/
theorem create_process_failure_atomic_witness :
    (create_process init_state "overflow_prio" 99).2 = init_state :=
  create_process_failure_atomic init_state "overflow_prio" 99 rfl

end PhotonX
